import Mathlib

/-!
# Shallow embedding of the applaunchd activation/lifecycle engine

This file embeds, in Lean, the data model and the operations of the
application-lifecycle daemon found under `src/`:

* `app_info.c` — the Application Record (`AppInfo`): identifier, metadata,
  activation flags, mutable `status` and opaque `runtime_data`;
* `process_manager.c` — the direct-spawn backend;
* `dbus_activation_manager.c` — the bus-name-activation backend;
* `systemd_manager.c` — the unit-activation backend;
* `app_launcher.c` — the coordinator: catalog lookup, list, start dispatch,
  and the D-Bus method handlers.

External effects (process spawning, bus watches, proxy creation, control-bus
calls, property queries) are modelled by an explicit environment `Env` whose
fields carry the results the C code would obtain from those calls, and by a
trace of external events (`ExtEvent`) recording spawns, watch registrations,
unit-start calls, activation calls and the emitted `started` / `terminated`
lifecycle signals.  All functions are pure state transformers translated
statement-by-statement from the C sources.
-/

namespace Applaunchd

/-- `AppStatus` from `app_info.h`. -/
inductive AppStatus where
  | inactive
  | starting
  | running
deriving Repr, DecidableEq

/-- `struct process_runtime_data` from `process_manager.c`
(fields `watcher`, `pid`, `app_id`). -/
structure ProcessRuntimeData where
  watcher : Nat
  pid : Int
  app_id : String
deriving Repr, DecidableEq

/-- The opaque `runtime_data` pointer of `struct _AppInfo`, which holds a
backend-specific structure: `struct process_runtime_data`,
`struct dbus_runtime_data` (watcher id and the `fdo_proxy`, modelled by its
presence), or `struct systemd_runtime_data` (escaped service path and the
signal-match slot; the `mgr` back-pointer carries no state). -/
inductive RuntimeData where
  | process (d : ProcessRuntimeData)
  | dbus (watcher : Nat) (has_proxy : Bool)
  | systemd (esc_service : String) (slot : Nat)
deriving Repr, DecidableEq

/-- `struct _AppInfo` from `app_info.c`: static metadata, the activation
flags, the mutable `status` and the opaque `runtime_data`. -/
structure AppInfo where
  app_id : String
  name : String
  icon_path : String
  command : String
  dbus_activated : Bool
  systemd_activated : Bool
  graphical : Bool
  status : AppStatus := .inactive
  runtime_data : Option RuntimeData := none
deriving Repr, DecidableEq

/-- Trace of externally observable actions: calls into the process / bus /
unit collaborators and the `started` / `terminated` signals, which
`app_launcher.c` forwards one-for-one to D-Bus subscribers. -/
inductive ExtEvent where
  | started (app_id : String)
  | terminated (app_id : String)
  | spawn (args : List String)
  | busWatch (app_id : String)
  | unitStart (service : String)
  | proxyNew (app_id : String) (path : String)
  | activateCall (app_id : String) (path : String)
deriving Repr, DecidableEq

/-- Results the C code obtains from its external collaborators: allocation,
`g_spawn_async`, `g_child_watch_add`, `g_bus_watch_name`,
`fdo_application_proxy_new_for_bus_sync`, and the `sd_bus` control calls of
the unit backend. -/
structure Env where
  alloc_ok : Bool := true
  spawn_ok : Bool := true
  spawn_pid : Int := 1000
  child_watcher : Nat := 1
  bus_watcher : Nat := 1
  proxy_new_ok : Bool := true
  startunit_ret : Int := 0
  parse_ret : Int := 0
  esc_service : String := ""
  match_ret : Int := 0
  slot : Nat := 1
deriving Repr, DecidableEq

/-- The `started` signals contained in a trace. -/
def startedEvents (tr : List ExtEvent) : List String :=
  tr.filterMap fun e =>
    match e with
    | .started i => some i
    | _ => none

/-- The `terminated` signals contained in a trace. -/
def terminatedEvents (tr : List ExtEvent) : List String :=
  tr.filterMap fun e =>
    match e with
    | .terminated i => some i
    | _ => none

/-!
## Process backend (`process_manager.c`)

The manager state is its `process_data` list.  The C stores heap pointers in
that list and on the record; entries are identified here by value.
-/

/-- Character-list splitter behind `g_strsplit(s, " ", -1)`: split on every
delimiter occurrence, keeping empty tokens. -/
def splitOnChar (delim : Char) : List Char → List (List Char)
  | [] => [[]]
  | c :: rest =>
      match splitOnChar delim rest with
      | [] => [[]]
      | t :: ts => if c == delim then [] :: t :: ts else (c :: t) :: ts

/-- `g_strsplit(s, " ", -1)` as used by the process backend: single-character
delimiter, no token limit; an empty string yields an empty vector. -/
def g_strsplit (s : String) (delim : Char) : List String :=
  match s.toList with
  | [] => []
  | cs => (splitOnChar delim cs).map List.asString

/-- `process_manager_start_app` (`process_manager.c:176-219`).  Splits the
command on spaces, spawns, registers a child watch, appends the runtime data
to `process_data`, stores it on the record and emits `started`.  Note the
source never calls `app_info_set_status` on this path.  (The `g_new0`
failure branch is kept as `alloc_ok`.)  Returns
(return value, process_data, record, trace). -/
def process_manager_start_app (env : Env) (pm : List ProcessRuntimeData)
    (app : AppInfo) : Bool × List ProcessRuntimeData × AppInfo × List ExtEvent :=
  if !env.alloc_ok then
    (false, pm, app, [])
  else
    let args := g_strsplit app.command ' '
    if !env.spawn_ok then
      (false, pm, app, [.spawn args])
    else
      let rd : ProcessRuntimeData :=
        { watcher := env.child_watcher, pid := env.spawn_pid, app_id := app.app_id }
      (true, pm ++ [rd], { app with runtime_data := some (.process rd) },
        [.spawn args, .started app.app_id])

/-- `get_app_id_for_pid` (`process_manager.c:92-108`): first entry of
`process_data` with the given pid, else `NULL`. -/
def get_app_id_for_pid (pm : List ProcessRuntimeData) (pid : Int) : Option String :=
  match pm with
  | [] => none
  | rd :: rest => if rd.pid == pid then some rd.app_id else get_app_id_for_pid rest pid

/-- `g_list_remove`: drop the first occurrence of the given entry. -/
def removeFirstRd (pm : List ProcessRuntimeData) (rd : ProcessRuntimeData) :
    List ProcessRuntimeData :=
  match pm with
  | [] => []
  | x :: rest => if x == rd then rest else x :: removeFirstRd rest rd

/-- `app_launcher_get_app_info` (`app_launcher.c:407-423`): first record of
the catalog whose `app_id` matches, else `NULL`. -/
def app_launcher_get_app_info (catalog : List AppInfo) (app_id : String) :
    Option AppInfo :=
  match catalog with
  | [] => none
  | a :: rest =>
      if a.app_id == app_id then some a else app_launcher_get_app_info rest app_id

/-- The C mutates the looked-up record in place; here the first record with
the given id is replaced by its new value. -/
def updateFirst (catalog : List AppInfo) (app_id : String) (a' : AppInfo) :
    List AppInfo :=
  match catalog with
  | [] => []
  | a :: rest =>
      if a.app_id == app_id then a' :: rest else a :: updateFirst rest app_id a'

/-- `process_manager_app_terminated_cb` (`process_manager.c:120-162`).  Looks
the pid up in `process_data`; if absent, only a warning is logged and nothing
changes.  Otherwise the record is reset to `Inactive` with no runtime data,
the entry is removed and `terminated` is emitted.  `wait_status` only selects
a log message.  If the record's stored runtime data is not a process handle
the C would dereference a foreign pointer; that branch is unreachable in the
verified scenarios and is modelled as leaving the state unchanged. -/
def process_manager_app_terminated_cb (pid : Int) (_wait_status : Int)
    (pm : List ProcessRuntimeData) (catalog : List AppInfo) :
    List ProcessRuntimeData × List AppInfo × List ExtEvent :=
  match get_app_id_for_pid pm pid with
  | none => (pm, catalog, [])
  | some app_id =>
    match app_launcher_get_app_info catalog app_id with
    | none => (pm, catalog, [])
    | some app =>
      match app.runtime_data with
      | some (.process rd) =>
          let app' : AppInfo := { app with status := .inactive, runtime_data := none }
          (removeFirstRd pm rd, updateFirst catalog app_id app', [.terminated app_id])
      | _ => (pm, catalog, [])

/-!
## Bus-activation backend (`dbus_activation_manager.c`)
-/

/-- Object path derivation of `dbus_activation_manager_activate_app`
(`dbus_activation_manager.c:214-216`): `g_strconcat("/", app_id)` followed by
`g_strdelimit(path, ".", '/')`, i.e. every `.` becomes `/`. -/
def dbus_path (app_id : String) : String :=
  String.map (fun c => if c == '.' then '/' else c) ("/" ++ app_id)

/-- `dbus_activation_manager_start_app` (`dbus_activation_manager.c:156-194`).
Allocates runtime data and calls `g_bus_watch_name` with the auto-start flag;
a zero watcher id is failure (data freed, record untouched); otherwise status
becomes `Starting` and the runtime data (watcher, no proxy yet) is stored. -/
def dbus_activation_manager_start_app (env : Env) (app : AppInfo) :
    Bool × AppInfo × List ExtEvent :=
  if !env.alloc_ok then
    (false, app, [])
  else if env.bus_watcher == 0 then
    (false, app, [.busWatch app.app_id])
  else
    (true, { app with status := .starting,
                      runtime_data := some (.dbus env.bus_watcher false) },
      [.busWatch app.app_id])

/-- `dbus_activation_manager_activate_app`
(`dbus_activation_manager.c:202-246`).  Fails (returns `FALSE`, untouched
record, no signal) when the record has no runtime data.  Otherwise, if no
proxy is cached yet one is created at the derived path (failure only logged);
if a proxy is then available the `Activate` method is called (failure only
logged); and in every such case the `started` signal is emitted and `TRUE`
returned.  The C casts the opaque pointer to `struct dbus_runtime_data`; the
coordinator only calls this for `dbus_activated` records, so the non-dbus
branches are unreachable and modelled as a plain failure return. -/
def dbus_activation_manager_activate_app (env : Env) (app : AppInfo) :
    Bool × AppInfo × List ExtEvent :=
  match app.runtime_data with
  | none => (false, app, [])
  | some (.dbus watcher has_proxy) =>
      let path := dbus_path app.app_id
      let (has_proxy', tr1) :=
        if !has_proxy then (env.proxy_new_ok, [ExtEvent.proxyNew app.app_id path])
        else (true, [])
      let tr2 := if has_proxy' then [ExtEvent.activateCall app.app_id path] else []
      (true, { app with runtime_data := some (.dbus watcher has_proxy') },
        tr1 ++ tr2 ++ [.started app.app_id])
  | some _ => (false, app, [])

/-- `dbus_activation_manager_app_started_cb`
(`dbus_activation_manager.c:121-142`): on name-appeared, look the record up
(bail out silently if absent), set status `Running`, then call the activate
operation (which emits `started`). -/
def dbus_activation_manager_app_started_cb (env : Env) (catalog : List AppInfo)
    (name : String) : List AppInfo × List ExtEvent :=
  match app_launcher_get_app_info catalog name with
  | none => (catalog, [])
  | some app =>
      let app1 : AppInfo := { app with status := .running }
      let r := dbus_activation_manager_activate_app env app1
      (updateFirst catalog name r.2.1, r.2.2)

/-- `dbus_activation_manager_app_terminated_cb`
(`dbus_activation_manager.c:91-115`): on name-vanished, look the record up
(bail out silently if absent), set status `Inactive`, clear the runtime data
(freeing it) and emit `terminated`. -/
def dbus_activation_manager_app_terminated_cb (catalog : List AppInfo)
    (name : String) : List AppInfo × List ExtEvent :=
  match app_launcher_get_app_info catalog name with
  | none => (catalog, [])
  | some app =>
      (updateFirst catalog name { app with status := .inactive, runtime_data := none },
        [.terminated name])

/-!
## Unit-activation backend (`systemd_manager.c`)
-/

/-- Service-name template of `systemd_manager_start_app`
(`systemd_manager.c:183`). -/
def agl_service (command : String) : String := "agl-app@" ++ command ++ ".service"

/-- `systemd_manager_start_app` (`systemd_manager.c:152-259`).  Allocates
runtime data, issues the `StartUnit` control call, parses the reply, encodes
the unit path (`env.esc_service` carries `sd_bus_path_encode`'s result) and
registers a `PropertiesChanged` signal match.  Any failure frees the data and
returns `FALSE` with the record untouched; on success the runtime data is
stored and status becomes `Starting`. -/
def systemd_manager_start_app (env : Env) (app : AppInfo) :
    Bool × AppInfo × List ExtEvent :=
  let service := agl_service app.command
  if !env.alloc_ok then
    (false, app, [])
  else if env.startunit_ret < 0 then
    (false, app, [.unitStart service])
  else if env.parse_ret < 0 then
    (false, app, [.unitStart service])
  else if env.match_ret < 0 then
    (false, app, [.unitStart service])
  else
    (true, { app with runtime_data := some (.systemd env.esc_service env.slot),
                      status := .starting },
      [.unitStart service])

/-- `systemd_manager_cb` (`systemd_manager.c:97-138`), the
`PropertiesChanged` handler.  Returns unchanged (a critical log only) when
the record has no runtime data.  Otherwise the unit's `ActiveState` is
queried out-of-band (`active_state` carries the result; `none` stands for a
failed query, on which `g_strcmp0` matches neither literal): `"inactive"`
resets the record and emits `terminated`; `"active"` sets `Running` and emits
`started`, with no check of the previous status; anything else is ignored. -/
def systemd_manager_cb (active_state : Option String) (app : AppInfo) :
    AppInfo × List ExtEvent :=
  match app.runtime_data with
  | none => (app, [])
  | some _ =>
      if active_state == some "inactive" then
        ({ app with status := .inactive, runtime_data := none },
          [.terminated app.app_id])
      else if active_state == some "active" then
        ({ app with status := .running }, [.started app.app_id])
      else
        (app, [])

/-!
## Coordinator (`app_launcher.c`)
-/

/-- `app_launcher_start_app` (`app_launcher.c:193-227`).  Dispatch on the
record's status: `Starting` is a no-op success; `Running` repeats the bus
activation when the record is `dbus_activated` (otherwise nothing); from
`Inactive` the bus backend is started when `dbus_activated`, else the process
backend.  The backend's boolean result is discarded and `TRUE` returned on
every one of these paths. -/
def app_launcher_start_app (env : Env) (pm : List ProcessRuntimeData)
    (app : AppInfo) : Bool × List ProcessRuntimeData × AppInfo × List ExtEvent :=
  match app.status with
  | .starting => (true, pm, app, [])
  | .running =>
      if app.dbus_activated then
        let r := dbus_activation_manager_activate_app env app
        (true, pm, r.2.1, r.2.2)
      else
        (true, pm, app, [])
  | .inactive =>
      if app.dbus_activated then
        let r := dbus_activation_manager_start_app env app
        (true, pm, r.2.1, r.2.2)
      else
        let r := process_manager_start_app env pm app
        (true, r.2.1, r.2.2.1, r.2.2.2)

/-- Reply of the `start` D-Bus method handler: a `G_DBUS_ERROR_INVALID_ARGS`
error for an unknown id, or `applaunchd_app_launch_complete_start`. -/
inductive StartReply where
  | error_unknown_app
  | completed
deriving Repr, DecidableEq

/-- `app_launcher_handle_start` (`app_launcher.c:236-258`).  Looks the id up
in the catalog; unknown ids get the error reply with nothing touched; known
ids are passed to `app_launcher_start_app`, whose result is discarded, and
the method completes successfully. -/
def app_launcher_handle_start (env : Env) (pm : List ProcessRuntimeData)
    (catalog : List AppInfo) (app_id : String) :
    StartReply × List ProcessRuntimeData × List AppInfo × List ExtEvent :=
  match app_launcher_get_app_info catalog app_id with
  | none => (.error_unknown_app, pm, catalog, [])
  | some app =>
      let r := app_launcher_start_app env pm app
      (.completed, r.2.1, updateFirst catalog app_id r.2.2.1, r.2.2.2)

/-- `app_launcher_get_list_variant` (`app_launcher.c:160-187`): walk the
catalog in order, skip non-graphical records when `graphical` is set, and
collect the (app-id, name, icon-path) triples. -/
def app_launcher_get_list_variant (catalog : List AppInfo) (graphical : Bool) :
    List (String × String × String) :=
  match catalog with
  | [] => []
  | a :: rest =>
      if graphical && !a.graphical then
        app_launcher_get_list_variant rest graphical
      else
        (a.app_id, a.name, a.icon_path) :: app_launcher_get_list_variant rest graphical

/-- `app_launcher_handle_list_applications` (`app_launcher.c:263-276`): build
the list variant and complete the call; the catalog is only read. -/
def app_launcher_handle_list_applications (catalog : List AppInfo)
    (graphical : Bool) : List (String × String × String) × List AppInfo :=
  (app_launcher_get_list_variant catalog graphical, catalog)

/-- Modelled from the spec (refinement target for the list operation):
"`list(graphical_only: bool) -> sequence of (id, display_name,
icon_reference)`, preserving catalog insertion order, filtered by `graphical`
when `graphical_only` is true." -/
def listApplications_spec (catalog : List AppInfo) (graphical_only : Bool) :
    List (String × String × String) :=
  (if graphical_only then catalog.filter (fun a => a.graphical) else catalog).map
    (fun a => (a.app_id, a.name, a.icon_path))

/-!
## Concrete fixtures
-/

/-- Scenario A's catalog entry: a direct-spawn (process-kind) application. -/
def clockApp : AppInfo :=
  { app_id := "clock", name := "Clock", icon_path := "/icons/clock.png",
    command := "clock --tray", dbus_activated := false,
    systemd_activated := false, graphical := true }

/-- A terminal-only (non-graphical) catalog entry. -/
def topApp : AppInfo :=
  { app_id := "top", name := "Top", icon_path := "",
    command := "top", dbus_activated := false,
    systemd_activated := false, graphical := false }

/-- Scenario C's record: a bus-activated application already `Running`, with
its bus watch and a cached activation proxy. -/
def notesRunningApp : AppInfo :=
  { app_id := "org.example.Notes", name := "Notes", icon_path := "",
    command := "", dbus_activated := true, systemd_activated := false,
    graphical := true, status := .running,
    runtime_data := some (.dbus 7 true) }

/-- The same bus-activated application, inactive with no runtime data. -/
def notesInactiveApp : AppInfo :=
  { notesRunningApp with status := .inactive, runtime_data := none }

/-- A unit-activated (systemd-kind) catalog entry, inactive. -/
def unitApp : AppInfo :=
  { app_id := "unit-app", name := "Unit App", icon_path := "",
    command := "foo", dbus_activated := false, systemd_activated := true,
    graphical := false }

/-- The unit-activated application once `Running`, holding its
property-change subscription. -/
def unitRunningApp : AppInfo :=
  { unitApp with status := .running,
                 runtime_data := some (.systemd "/org/freedesktop/systemd1/unit/x" 3) }

/-- Environment in which every external call succeeds. -/
def envOk : Env := {}

/-- Environment in which `g_spawn_async` fails. -/
def envSpawnFail : Env := { spawn_ok := false }

/-!
## Helper lemmas
-/

/-- `get_app_id_for_pid` misses exactly when no tracked entry has the pid. -/
lemma get_app_id_for_pid_eq_none (pm : List ProcessRuntimeData) (pid : Int)
    (h : ∀ rd ∈ pm, rd.pid ≠ pid) : get_app_id_for_pid pm pid = none := by
  induction pm with
  | nil => rfl
  | cons rd rest ih =>
      have h1 : rd.pid ≠ pid := h rd (List.mem_cons_self rd rest)
      have h2 : ∀ x ∈ rest, x.pid ≠ pid := fun x hx => h x (List.mem_cons_of_mem rd hx)
      simp [get_app_id_for_pid, h1, ih h2]

/-- The source's list walk computes the spec's filter-then-project list. -/
lemma get_list_variant_eq_spec (catalog : List AppInfo) (g : Bool) :
    app_launcher_get_list_variant catalog g = listApplications_spec catalog g := by
  induction catalog with
  | nil => cases g <;> rfl
  | cons a rest ih =>
      cases g with
      | false =>
          simpa [app_launcher_get_list_variant, listApplications_spec] using ih
      | true =>
          by_cases hg : a.graphical <;>
            simpa [app_launcher_get_list_variant, listApplications_spec, hg] using ih

/-!
## Claim theorems
-/

/-- C7: for every id not present in the catalog, the `start` handler replies
with the unknown-application error and mutates neither the process-manager
state, nor the catalog, nor any record, and emits no event. -/
theorem C7_unknown_id_start_no_mutation (env : Env) (pm : List ProcessRuntimeData)
    (catalog : List AppInfo) (app_id : String)
    (h : app_launcher_get_app_info catalog app_id = none) :
    app_launcher_handle_start env pm catalog app_id =
      (.error_unknown_app, pm, catalog, []) := by
  unfold app_launcher_handle_start
  rw [h]

/-- Witness for C7 at a concrete catalog and unknown id. -/
theorem C7_unknown_id_start_no_mutation_witness :
    app_launcher_get_app_info [clockApp] "nonexistent" = none ∧
    app_launcher_handle_start envOk [] [clockApp] "nonexistent" =
      (.error_unknown_app, [], [clockApp], []) :=
  ⟨by decide, C7_unknown_id_start_no_mutation envOk [] [clockApp] "nonexistent" (by decide)⟩

/-- C8: `listApplications` returns the (id, name, icon) triples in catalog
insertion order, filtered to the graphical records exactly when
`graphical_only` is true, and leaves the catalog (hence every record)
unchanged. -/
theorem C8_list_applications_spec (catalog : List AppInfo) (graphical : Bool) :
    app_launcher_handle_list_applications catalog graphical =
      (listApplications_spec catalog graphical, catalog) := by
  unfold app_launcher_handle_list_applications
  rw [get_list_variant_eq_spec]

/-- C9: a process-exit callback for a pid with no entry in the tracked
process list changes nothing: process list, catalog and all records are left
as they were, and no `terminated` event is emitted. -/
theorem C9_unknown_pid_exit_no_change (pid wait_status : Int)
    (pm : List ProcessRuntimeData) (catalog : List AppInfo)
    (h : ∀ rd ∈ pm, rd.pid ≠ pid) :
    process_manager_app_terminated_cb pid wait_status pm catalog =
      (pm, catalog, []) := by
  unfold process_manager_app_terminated_cb
  rw [get_app_id_for_pid_eq_none pm pid h]

/-- Witness for C9: an exit for pid 42 while only pid 1000 is tracked. -/
theorem C9_unknown_pid_exit_no_change_witness :
    (∀ rd ∈ [(⟨1, 1000, "clock"⟩ : ProcessRuntimeData)], rd.pid ≠ 42) ∧
    process_manager_app_terminated_cb 42 0 [⟨1, 1000, "clock"⟩] [clockApp] =
      ([⟨1, 1000, "clock"⟩], [clockApp], []) :=
  ⟨by decide, C9_unknown_pid_exit_no_change 42 0 [⟨1, 1000, "clock"⟩] [clockApp] (by decide)⟩

/-- C10: the bus backend's activate operation on a record with no runtime
data returns failure, emits no event (in particular no `started`), and
leaves the record — status and runtime data included — unchanged. -/
theorem C10_activate_without_handle_fails (env : Env) (app : AppInfo)
    (h : app.runtime_data = none) :
    dbus_activation_manager_activate_app env app = (false, app, []) := by
  unfold dbus_activation_manager_activate_app
  rw [h]

/-- Witness for C10 at the inactive bus-activated record. -/
theorem C10_activate_without_handle_fails_witness :
    notesInactiveApp.runtime_data = none ∧
    dbus_activation_manager_activate_app envOk notesInactiveApp =
      (false, notesInactiveApp, []) :=
  ⟨by decide, C10_activate_without_handle_fails envOk notesInactiveApp (by decide)⟩

/-- C1: the status/handle coupling (`runtime_handle` present iff
`status != Inactive`) is violated by the code: a successful
`process_manager_start_app` stores the runtime data and returns `TRUE` but
never calls `app_info_set_status`, so the record ends with runtime data
present while its status is still `Inactive`. -/
theorem C1_process_start_breaks_coupling :
    (process_manager_start_app envOk [] clockApp).1 = true ∧
    (process_manager_start_app envOk [] clockApp).2.2.1.status = .inactive ∧
    (process_manager_start_app envOk [] clockApp).2.2.1.runtime_data ≠ none := by
  decide

/-- C2: a successful process-backend start of an `Inactive` record emits
exactly one `started` event, but — against the claim — it leaves the status
`Inactive` (the source never sets `Starting` or `Running` on this path), so
the record does not move Inactive→Starting→Running. -/
theorem C2_process_start_leaves_status_inactive :
    process_manager_start_app envOk [] clockApp =
      (true, [⟨1, 1000, "clock"⟩],
        { clockApp with runtime_data := some (.process ⟨1, 1000, "clock"⟩) },
        [.spawn ["clock", "--tray"], .started "clock"]) ∧
    (process_manager_start_app envOk [] clockApp).2.2.1.status ≠ .starting := by
  decide

/-- C3 counterexample: with the spawn failing, the process backend reports
failure (`FALSE`), yet the `start` handler still replies success
(`applaunchd_app_launch_complete_start`) to the caller — not a spawn-failure
error as the claim states. -/
theorem C3_counterexample_spawn_failure_reported_as_success :
    (process_manager_start_app envSpawnFail [] clockApp).1 = false ∧
    (app_launcher_handle_start envSpawnFail [] [clockApp] "clock").1 = .completed := by
  decide

/-- C3 amended: the backend's start result is discarded by the coordinator:
for every known application id, the `start` handler replies success,
whatever the backend start attempt returned. -/
theorem C3_known_id_start_always_completes (env : Env)
    (pm : List ProcessRuntimeData) (catalog : List AppInfo) (app_id : String)
    (app : AppInfo) (h : app_launcher_get_app_info catalog app_id = some app) :
    (app_launcher_handle_start env pm catalog app_id).1 = .completed := by
  unfold app_launcher_handle_start
  rw [h]

/-- Witness for the amended C3: the spawn fails, the reply is still
success. -/
theorem C3_known_id_start_always_completes_witness :
    app_launcher_get_app_info [clockApp] "clock" = some clockApp ∧
    (app_launcher_handle_start envSpawnFail [] [clockApp] "clock").1 = .completed :=
  ⟨by decide,
    C3_known_id_start_always_completes envSpawnFail [] [clockApp] "clock" clockApp
      (by decide)⟩

/-- C4 counterexample: starting an already-`Running` bus-activated record
again does re-emit `started` (the activate operation ends with an
unconditional signal emission), contradicting the claim's "does not re-emit
the started event". -/
theorem C4_counterexample_restart_reemits_started :
    (app_launcher_start_app envOk [] notesRunningApp).2.2.1.status = .running ∧
    startedEvents (app_launcher_start_app envOk [] notesRunningApp).2.2.2 =
      ["org.example.Notes"] := by
  decide

/-- C4 amended: for a `Running` bus-activated record with a cached proxy,
calling start again leaves the record exactly as it was (status still
`Running`, same runtime data), repeats the activate call against the cached
proxy at the derived object path, returns success — and re-emits one
`started` event. -/
theorem C4_running_restart_repeats_activate (env : Env)
    (pm : List ProcessRuntimeData) (app : AppInfo) (w : Nat)
    (hs : app.status = .running) (hd : app.dbus_activated = true)
    (hr : app.runtime_data = some (.dbus w true)) :
    app_launcher_start_app env pm app =
      (true, pm, app,
        [.activateCall app.app_id (dbus_path app.app_id), .started app.app_id]) := by
  obtain ⟨i, n, ic, c, d, s, g, st, rd⟩ := app
  simp only at hs hd hr
  subst hs hd hr
  rfl

/-- Witness for the amended C4 at Scenario C's record. -/
theorem C4_running_restart_repeats_activate_witness :
    notesRunningApp.status = .running ∧
    notesRunningApp.dbus_activated = true ∧
    notesRunningApp.runtime_data = some (.dbus 7 true) ∧
    app_launcher_start_app envOk [] notesRunningApp =
      (true, [], notesRunningApp,
        [.activateCall "org.example.Notes" (dbus_path "org.example.Notes"),
         .started "org.example.Notes"]) :=
  ⟨by decide, by decide, by decide,
    C4_running_restart_repeats_activate envOk [] notesRunningApp 7
      (by decide) (by decide) (by decide)⟩

/-- C5 counterexample: an `"active"` property-change delivery while the
unit-activated record is already `Running` is not ignored — a second
`started` event is emitted. -/
theorem C5_counterexample_duplicate_active_reemits_started :
    unitRunningApp.status = .running ∧
    startedEvents (systemd_manager_cb (some "active") unitRunningApp).2 =
      ["unit-app"] := by
  decide

/-- C5 amended: for any record with runtime data present, an `"active"`
notification sets the status to `Running` and emits `started` with no check
of the previous status, so duplicate `"active"` deliveries produce duplicate
`started` events. -/
theorem C5_active_notification_not_suppressed (app : AppInfo)
    (rd : RuntimeData) (h : app.runtime_data = some rd) :
    systemd_manager_cb (some "active") app =
      ({ app with status := .running }, [.started app.app_id]) := by
  unfold systemd_manager_cb
  rw [h]
  simp

/-- Witness for the amended C5 at the already-`Running` unit record. -/
theorem C5_active_notification_not_suppressed_witness :
    unitRunningApp.runtime_data =
      some (.systemd "/org/freedesktop/systemd1/unit/x" 3) ∧
    systemd_manager_cb (some "active") unitRunningApp =
      ({ unitRunningApp with status := .running }, [.started "unit-app"]) :=
  ⟨by decide,
    C5_active_notification_not_suppressed unitRunningApp
      (.systemd "/org/freedesktop/systemd1/unit/x" 3) (by decide)⟩

/-- C6 counterexample: starting the inactive unit-activated
(`systemd_activated`, not `dbus_activated`) record invokes the process
backend — the trace shows the spawn of its command line and no `StartUnit`
call — rather than `systemd_manager_start_app` as the claim states. -/
theorem C6_counterexample_unit_app_goes_to_process_backend :
    app_launcher_start_app envOk [] unitApp =
      (true, [⟨1, 1000, "unit-app"⟩],
        { unitApp with runtime_data := some (.process ⟨1, 1000, "unit-app"⟩) },
        [.spawn ["foo"], .started "unit-app"]) ∧
    (app_launcher_start_app envOk [] unitApp).2.2.2.all
      (fun e => e ≠ .unitStart (agl_service "foo")) = true := by
  decide

/-- C6 amended: backend selection for an `Inactive` record is a pure
function of `dbus_activated` alone: bus-activated records go to the bus
backend, every other record — unit-activated ones included — goes to the
process backend; the unit backend's start is never invoked by the
coordinator. -/
theorem C6_dispatch_is_by_dbus_flag (env : Env) (pm : List ProcessRuntimeData)
    (app : AppInfo) (h : app.status = .inactive) :
    app_launcher_start_app env pm app =
      (if app.dbus_activated then
        (true, pm, (dbus_activation_manager_start_app env app).2.1,
          (dbus_activation_manager_start_app env app).2.2)
      else
        (true, (process_manager_start_app env pm app).2.1,
          (process_manager_start_app env pm app).2.2.1,
          (process_manager_start_app env pm app).2.2.2)) := by
  unfold app_launcher_start_app
  rw [h]

/-- Witness for the amended C6 at the inactive unit-activated record. -/
theorem C6_dispatch_is_by_dbus_flag_witness :
    unitApp.status = .inactive ∧
    app_launcher_start_app envOk [] unitApp =
      (if unitApp.dbus_activated then
        (true, [], (dbus_activation_manager_start_app envOk unitApp).2.1,
          (dbus_activation_manager_start_app envOk unitApp).2.2)
      else
        (true, (process_manager_start_app envOk [] unitApp).2.1,
          (process_manager_start_app envOk [] unitApp).2.2.1,
          (process_manager_start_app envOk [] unitApp).2.2.2)) :=
  ⟨by decide, C6_dispatch_is_by_dbus_flag envOk [] unitApp (by decide)⟩

end Applaunchd
